import Mathlib

/-!
Verification of the PLU Substitutions client (src/src/App.jsx).

The development shallowly embeds the data model and the operations of the
application: the substitution records, the live-search filter (`results`),
the login identifier resolver (`resolveLoginToEmail`) and sign-in flow
(`signIn`), the catalog reload (`loadData`), the editor save flow
(`saveRow`) with its validation sequence, the delete flow (`deleteRow`),
and sign-out (`signOut`).  Backend interaction is modelled by passing the
backend's response as an explicit argument and recording the calls the
operation issues in a trace.

The JavaScript string primitives used by the code (`trim`, `toLowerCase`,
`join(" ")`, `includes`) are modelled by structurally recursive functions
over the character list of a string, so that every operation is executable
and every concrete scenario can be settled by evaluation.
-/

namespace PLUSubs

/-- JS `s.toLowerCase()`, modelled character by character. -/
def jsToLower (s : String) : String :=
  ⟨s.data.map Char.toLower⟩

/-- JS `s.trim()`: drop whitespace from both ends. -/
def jsTrim (s : String) : String :=
  ⟨(((s.data.dropWhile Char.isWhitespace).reverse.dropWhile Char.isWhitespace).reverse : List Char)⟩

/-- JS `s.includes(c)` for a single character `c`. -/
def containsChar (s : String) (c : Char) : Bool :=
  s.data.any (fun a => a == c)

/-- One list of characters is a prefix of another. -/
def prefixOfList : List Char → List Char → Bool
  | [], _ => true
  | _ :: _, [] => false
  | a :: as, b :: bs => a == b && prefixOfList as bs

/-- One list of characters occurs contiguously inside another. -/
def infixOfList (sub : List Char) : List Char → Bool
  | [] => prefixOfList sub []
  | b :: bs => prefixOfList sub (b :: bs) || infixOfList sub bs

/-- JS `s.includes(sub)`: `sub` occurs as a contiguous substring of `s`. -/
def containsSubstr (s sub : String) : Bool :=
  infixOfList sub.data s.data

/-- JS `parts.join(" ")`. -/
def joinSpace : List String → String
  | [] => ""
  | [s] => s
  | s :: rest => s ++ " " ++ joinSpace rest

/-- One substitution record, as selected from the `code_substitutions`
collection: `id, product_name, old_code, new_code, notes`.  `notes` is
nullable; the three text fields are plain strings. -/
structure Row where
  id : Nat
  product_name : String
  old_code : String
  new_code : String
  notes : Option String
deriving DecidableEq, Repr

/-- The haystack built by the search filter for one row:
`[r.product_name, r.old_code, r.new_code, r.notes].filter(Boolean).join(" ").toLowerCase()`.
`filter(Boolean)` drops both `null` notes and empty-string fields. -/
def rowHay (r : Row) : String :=
  jsToLower (joinSpace
    (([some r.product_name, some r.old_code, some r.new_code, r.notes].filterMap id).filter
      (fun s => s ≠ "")))

/-- The live-search filter `results`: trim and lowercase the query; when the
result is empty return the rows unchanged, otherwise keep the rows whose
haystack contains the query. -/
def results (rows : List Row) (query : String) : List Row :=
  if jsToLower (jsTrim query) = "" then rows
  else rows.filter (fun r => containsSubstr (rowHay r) (jsToLower (jsTrim query)))

/-- The haystack exactly as the specification words it: the lowercase
concatenation of `product_name`, `old_code`, `new_code`, and `notes`,
omitting only null fields. -/
def claimSearchHay (r : Row) : String :=
  jsToLower (r.product_name ++ r.old_code ++ r.new_code ++
    (match r.notes with
     | some n => n
     | none => ""))

/-- The search filter exactly as the specification words it: on a non-empty
trimmed lowercased query, the ordered subsequence of rows whose
`claimSearchHay` contains the query. -/
def claimSearch (rows : List Row) (query : String) : List Row :=
  if jsToLower (jsTrim query) = "" then rows
  else rows.filter (fun r => containsSubstr (claimSearchHay r) (jsToLower (jsTrim query)))

/-- The amended specification haystack: the lowercase space-separated
concatenation of `product_name`, `old_code`, `new_code`, and `notes`,
omitting null and empty fields. -/
def specSearchHay (r : Row) : String :=
  jsToLower (joinSpace
    (([r.product_name, r.old_code, r.new_code] ++
      (match r.notes with
       | some n => [n]
       | none => [])).filter (fun s => s ≠ "")))

/-- The search filter per the amended specification: trim and lowercase the
query; when non-empty, keep exactly the rows whose `specSearchHay` contains
it as a substring. -/
def specSearch (rows : List Row) (query : String) : List Row :=
  if jsToLower (jsTrim query) = "" then rows
  else rows.filter (fun r => containsSubstr (specSearchHay r) (jsToLower (jsTrim query)))

theorem rowHay_eq_specSearchHay (r : Row) : rowHay r = specSearchHay r := by
  unfold rowHay specSearchHay
  cases r.notes <;> rfl

/-- C1 amended: the implemented filter agrees with the amended spec filter,
and always returns an ordered subsequence of the catalog. -/
theorem results_matches_amended_spec (rows : List Row) (query : String) :
    results rows query = specSearch rows query ∧ (results rows query).Sublist rows := by
  constructor
  · unfold results specSearch
    by_cases h : jsToLower (jsTrim query) = ""
    · simp [h]
    · rw [if_neg h, if_neg h]
      exact List.filter_congr (fun r _ => by rw [rowHay_eq_specSearchHay])
  · unfold results
    by_cases h : jsToLower (jsTrim query) = ""
    · simp [h]
    · rw [if_neg h]
      exact List.filter_sublist _

/-- C1 counterexample: on the catalog `[{product_name := "ab", old_code := "",
new_code := "cd", notes := null}]` and the query `"b c"`, the implemented
filter keeps the row (its haystack is `"ab cd"`) while the spec's literal
concatenation (`"abcd"`) does not contain the query, so the claimed filter
drops it. -/
theorem results_claim_counterexample :
    results [⟨1, "ab", "", "cd", none⟩] "b c" ≠ claimSearch [⟨1, "ab", "", "cd", none⟩] "b c" := by
  decide

/-- C8: filtering with the empty query returns the catalog unchanged, and
filtering is idempotent for every query. -/
theorem results_empty_and_idempotent (rows : List Row) (q : String) :
    results rows "" = rows ∧ results (results rows q) q = results rows q := by
  constructor
  · rfl
  · unfold results
    by_cases h : jsToLower (jsTrim q) = ""
    · simp [h]
    · simp [h, List.filter_filter]

/-- Message shown when the login field is empty after trimming. -/
def enterIdentifierMessage : String := "Please enter your email or username."

/-- Message shown when a username shortcut is not in the mapping. -/
def unknownUsernameMessage : String :=
  "Unknown username. Use your email address, or ask the admin to add your username."

/-- Generic sign-in failure message. -/
def loginFailedMessage : String := "Login failed. Check email or username and password."

/-- The fixed username-shortcut mapping `USERNAME_TO_EMAIL`. -/
def USERNAME_TO_EMAIL : List (String × String) :=
  [("substitutions", "teamcharlton@gmail.com")]

/-- A JavaScript value the lookup `USERNAME_TO_EMAIL[key]` can produce:
a configured email string, or a truthy non-string value inherited from
`Object.prototype` through the prototype chain. -/
inductive JsValue where
  | str (s : String)
  | inheritedObject (key : String)
deriving DecidableEq, Repr

/-- The JS property read `USERNAME_TO_EMAIL[key]` on the object literal:
an own property when the key is configured; otherwise the read walks the
prototype chain, so the keys naming an inherited `Object.prototype`
property return its (truthy) value.  Since the code lowercases the key
first, the reachable inherited names are exactly the all-lowercase ones,
`constructor` and `__proto__`; every other key reads `undefined`. -/
def usernameMapLookup (key : String) : Option JsValue :=
  match USERNAME_TO_EMAIL.lookup key with
  | some v => some (JsValue.str v)
  | none =>
    if key = "constructor" then some (JsValue.inheritedObject "constructor")
    else if key = "__proto__" then some (JsValue.inheritedObject "__proto__")
    else none

/-- Result of resolving the login field. -/
inductive ResolveResult where
  | ok (email : JsValue)
  | err (message : String)
deriving DecidableEq, Repr

/-- `resolveLoginToEmail`: trim the input; reject when empty; treat it as a
literal email when it contains `@`; otherwise read the lowercased input
from the shortcut mapping object, reporting unknown only when that read is
falsy. -/
def resolveLoginToEmail (input : String) : ResolveResult :=
  if jsTrim input = "" then ResolveResult.err enterIdentifierMessage
  else if containsChar (jsTrim input) '@' then ResolveResult.ok (JsValue.str (jsTrim input))
  else
    match usernameMapLookup (jsToLower (jsTrim input)) with
    | some mapped => ResolveResult.ok mapped
    | none => ResolveResult.err unknownUsernameMessage

/-- The login modal state read and written by `signIn`. -/
structure LoginState where
  authOpen : Bool
  email : String
  password : String
deriving DecidableEq, Repr

/-- Everything observable about one `signIn` run: the final modal state,
the `(email, password)` pairs sent to the backend (the email slot carries
whatever value resolution produced), and the alert shown. -/
structure SignInOutcome where
  state : LoginState
  calls : List (JsValue × String)
  alertMsg : Option String
deriving DecidableEq, Repr

/-- `signIn`: resolve the identifier; on failure alert its message without
contacting the backend; otherwise call the backend sign-in, alerting the
generic failure message on error, and on success close the modal and clear
the credentials.  `backendError` is the backend's answer if it is called. -/
def signIn (st : LoginState) (backendError : Option String) : SignInOutcome :=
  match resolveLoginToEmail st.email with
  | ResolveResult.err m => { state := st, calls := [], alertMsg := some m }
  | ResolveResult.ok e =>
    match backendError with
    | some _ =>
      { state := st, calls := [(e, st.password)], alertMsg := some loginFailedMessage }
    | none =>
      { state := { authOpen := false, email := "", password := "" }
        calls := [(e, st.password)]
        alertMsg := none }

/-- C2 counterexample: the identifier `"constructor"` contains no `@` and
its lowercased form is absent from the configured shortcut mapping, yet the
object read `USERNAME_TO_EMAIL["constructor"]` hits the truthy inherited
`Object.prototype.constructor`, resolution succeeds, and `signIn` does call
the backend.  Separately, the empty identifier also satisfies the claim's
hypotheses but is rejected with please-enter, not the unknown-identifier
message. -/
theorem signIn_claim_counterexample :
    ((containsChar (jsTrim "constructor") '@') = false ∧
      USERNAME_TO_EMAIL.lookup (jsToLower (jsTrim "constructor")) = none ∧
      (signIn ⟨true, "constructor", "pw"⟩ none).calls ≠ []) ∧
    ((containsChar (jsTrim "") '@') = false ∧
      USERNAME_TO_EMAIL.lookup (jsToLower (jsTrim "")) = none ∧
      (signIn ⟨true, "", "pw"⟩ none).calls = [] ∧
      (signIn ⟨true, "", "pw"⟩ none).alertMsg ≠ some unknownUsernameMessage) := by
  decide

/-- C2 amended: when the trimmed identifier has no `@`, its lowercased form
is absent from the shortcut mapping, and it is not one of the all-lowercase
inherited `Object.prototype` property names (`constructor`, `__proto__`),
`signIn` never calls the backend and surfaces the unknown-identifier
message when the trimmed identifier is non-empty, and the please-enter
prompt when it is empty. -/
theorem signIn_unknown_identifier_blocks (st : LoginState) (backendError : Option String)
    (hat : (containsChar (jsTrim st.email) '@') = false)
    (hmap : USERNAME_TO_EMAIL.lookup (jsToLower (jsTrim st.email)) = none)
    (hctor : jsToLower (jsTrim st.email) ≠ "constructor")
    (hproto : jsToLower (jsTrim st.email) ≠ "__proto__") :
    (signIn st backendError).calls = [] ∧
    (signIn st backendError).alertMsg =
      some (if jsTrim st.email = "" then enterIdentifierMessage else unknownUsernameMessage) := by
  unfold signIn resolveLoginToEmail usernameMapLookup
  by_cases h : jsTrim st.email = "" <;> simp [h, hat, hmap, hctor, hproto]

/-- C2 witness: the identifier `"bob"` satisfies the hypotheses and is
blocked with the unknown-identifier message. -/
theorem signIn_unknown_identifier_blocks_witness :
    ((containsChar (jsTrim "bob") '@') = false ∧
      USERNAME_TO_EMAIL.lookup (jsToLower (jsTrim "bob")) = none ∧
      jsToLower (jsTrim "bob") ≠ "constructor" ∧
      jsToLower (jsTrim "bob") ≠ "__proto__") ∧
    ((signIn ⟨true, "bob", "pw"⟩ none).calls = [] ∧
      (signIn ⟨true, "bob", "pw"⟩ none).alertMsg =
        some (if jsTrim ("bob" : String) = "" then enterIdentifierMessage
          else unknownUsernameMessage)) :=
  ⟨⟨by decide, by decide, by decide, by decide⟩,
    signIn_unknown_identifier_blocks ⟨true, "bob", "pw"⟩ none (by decide) (by decide)
      (by decide) (by decide)⟩

/-- The four text fields of the editor form. -/
structure Form where
  product_name : String
  old_code : String
  new_code : String
  notes : String
deriving DecidableEq, Repr

/-- The payload `saveRow` builds from the form: the three required fields
trimmed, and `notes` trimmed with the empty result replaced by null. -/
structure Payload where
  product_name : String
  old_code : String
  new_code : String
  notes : Option String
deriving DecidableEq, Repr

def mkPayload (f : Form) : Payload :=
  { product_name := jsTrim f.product_name
    old_code := jsTrim f.old_code
    new_code := jsTrim f.new_code
    notes := if jsTrim f.notes = "" then none else some (jsTrim f.notes) }

/-- The editor target: closed, adding (`editing = { id: null }`), or
editing an existing row (`editing = row`). -/
inductive Editing where
  | closed
  | adding
  | row (r : Row)
deriving DecidableEq, Repr

/-- `editing?.id`, as read by `saveRow`. -/
def editingId : Editing → Option Nat
  | Editing.row r => some r.id
  | _ => none

/-- The self-exclusion test of the duplicate scan:
`editing?.id && r.id === editing.id`. -/
def isEditedRow (editing : Editing) (r : Row) : Bool :=
  match editing with
  | Editing.row er => r.id == er.id
  | _ => false

/-- The duplicate scan on `product_name`, excluding the edited row. -/
def dupName (rows : List Row) (editing : Editing) (p : Payload) : Option Row :=
  rows.find? (fun r =>
    if isEditedRow editing r then false
    else jsToLower r.product_name == jsToLower p.product_name)

/-- The duplicate scan on `new_code`, excluding the edited row. -/
def dupNewCode (rows : List Row) (editing : Editing) (p : Payload) : Option Row :=
  rows.find? (fun r =>
    if isEditedRow editing r then false
    else jsToLower r.new_code == jsToLower p.new_code)

/-- Alert shown when a required field is blank. -/
def missingFieldsMessage : String := "Please fill Product Name, Old Code, and New Code."

/-- Error shown when the duplicate scan finds a match. -/
def duplicateMessage : String := "Duplicate: Product Name and New Code already exists."

/-- Alert shown when saving without a session. -/
def mustLoginEditMessage : String := "You must be logged in to edit."

/-- Generic save failure message. -/
def saveFailedMessage : String := "Save failed. Check your login and try again."

/-- Alert shown when deleting without a session. -/
def mustLoginDeleteMessage : String := "You must be logged in to delete."

/-- Generic delete failure message. -/
def deleteFailedMessage : String := "Delete failed. Check your login and try again."

/-- Fallback message when a load fails without its own message. -/
def loadFailedMessage : String := "Failed to load data."

/-- One backend call, in the order the client issues them. -/
inductive BackendCall where
  | insertCall (p : Payload)
  | updateCall (id : Nat) (p : Payload)
  | deleteCall (id : Nat)
  | listCall
deriving DecidableEq, Repr

/-- Whether a backend call is a mutation (insert, update or delete). -/
def BackendCall.isMutation : BackendCall → Bool
  | BackendCall.listCall => false
  | _ => true

/-- Everything observable about one `saveRow` run: the backend calls issued
in order, the alert shown, the error flag set by `saveRow` itself, and
whether the editor was closed.  The state effects of the reload it triggers
are modelled by `loadData`. -/
structure SaveOutcome where
  calls : List BackendCall
  alertMsg : Option String
  errorMsg : String
  editorClosed : Bool
deriving DecidableEq, Repr

/-- `saveRow`: trim the fields into the payload; reject blank required
fields; reject when the duplicate scan matches; reject without a session;
otherwise update (when editing has an id) or insert, and on success reload
and close the editor.  `mutError` is the backend's answer to the mutation
if it is issued. -/
def saveRow (rows : List Row) (editing : Editing) (form : Form)
    (isAuthed : Bool) (mutError : Option String) : SaveOutcome :=
  let payload := mkPayload form
  if payload.product_name = "" || payload.old_code = "" || payload.new_code = "" then
    { calls := [], alertMsg := some missingFieldsMessage, errorMsg := "", editorClosed := false }
  else if (dupName rows editing payload).isSome || (dupNewCode rows editing payload).isSome then
    { calls := [], alertMsg := some duplicateMessage, errorMsg := duplicateMessage
      editorClosed := false }
  else if !isAuthed then
    { calls := [], alertMsg := some mustLoginEditMessage, errorMsg := "", editorClosed := false }
  else
    let mutation :=
      match editingId editing with
      | some i => BackendCall.updateCall i payload
      | none => BackendCall.insertCall payload
    match mutError with
    | some e =>
      { calls := [mutation], alertMsg := some saveFailedMessage
        errorMsg := if e = "" then saveFailedMessage else e
        editorClosed := false }
    | none =>
      { calls := [mutation, BackendCall.listCall], alertMsg := none, errorMsg := ""
        editorClosed := true }

/-- The form `openEdit` seeds from a row. -/
def openEditForm (row : Row) : Form :=
  { product_name := row.product_name
    old_code := row.old_code
    new_code := row.new_code
    notes := row.notes.getD "" }

/-- C5: a draft with a required field blank after trimming is rejected with
the missing-field alert and no backend call, whatever the catalog, editing
target, session, or backend. -/
theorem saveRow_missing_required (rows : List Row) (editing : Editing) (form : Form)
    (isAuthed : Bool) (mutError : Option String)
    (h : jsTrim form.product_name = "" ∨ jsTrim form.old_code = "" ∨ jsTrim form.new_code = "") :
    (saveRow rows editing form isAuthed mutError).calls = [] ∧
    (saveRow rows editing form isAuthed mutError).alertMsg = some missingFieldsMessage := by
  have hcond : ((mkPayload form).product_name = "" || (mkPayload form).old_code = ""
      || (mkPayload form).new_code = "") = true := by
    rcases h with h | h | h <;> simp [mkPayload, h]
  unfold saveRow
  simp only [hcond]
  exact ⟨rfl, rfl⟩

/-- C5 witness: a draft with a blank product name is rejected. -/
theorem saveRow_missing_required_witness :
    (jsTrim ("" : String) = "" ∨ jsTrim ("x" : String) = "" ∨ jsTrim ("y" : String) = "") ∧
    ((saveRow [] Editing.adding ⟨"", "x", "y", ""⟩ true none).calls = [] ∧
      (saveRow [] Editing.adding ⟨"", "x", "y", ""⟩ true none).alertMsg =
        some missingFieldsMessage) :=
  ⟨Or.inl (by decide),
    saveRow_missing_required [] Editing.adding ⟨"", "x", "y", ""⟩ true none (Or.inl (by decide))⟩

/-- C3 counterexample: the draft `{product_name := "Apple", old_code := "",
new_code := "99"}` matches the loaded record `"Apple"` case-insensitively
and nothing is being edited, yet submitting surfaces the missing-field
alert, not the duplicate error, because the blank `old_code` short-circuits
the validation first. -/
theorem saveRow_duplicate_claim_counterexample :
    (∃ r ∈ [(⟨1, "Apple", "1", "17", none⟩ : Row)], isEditedRow Editing.adding r = false ∧
      (jsToLower r.product_name = jsToLower (jsTrim "Apple") ∨
        jsToLower r.new_code = jsToLower (jsTrim "99"))) ∧
    (saveRow [⟨1, "Apple", "1", "17", none⟩] Editing.adding ⟨"Apple", "", "99", ""⟩ true
        none).alertMsg ≠ some duplicateMessage ∧
    (saveRow [⟨1, "Apple", "1", "17", none⟩] Editing.adding ⟨"Apple", "", "99", ""⟩ true
        none).errorMsg ≠ duplicateMessage := by
  decide

/-- C3 amended: when all three required fields are non-empty after trimming
and the trimmed `product_name` or `new_code` matches a loaded record other
than the one being edited (case-insensitively), submitting surfaces the
duplicate error and issues no backend call. -/
theorem saveRow_duplicate_blocks (rows : List Row) (editing : Editing) (form : Form)
    (isAuthed : Bool) (mutError : Option String)
    (hpn : jsTrim form.product_name ≠ "") (hoc : jsTrim form.old_code ≠ "")
    (hnc : jsTrim form.new_code ≠ "")
    (hdup : ∃ r ∈ rows, isEditedRow editing r = false ∧
      (jsToLower r.product_name = jsToLower (jsTrim form.product_name) ∨
        jsToLower r.new_code = jsToLower (jsTrim form.new_code))) :
    (saveRow rows editing form isAuthed mutError).calls = [] ∧
    (saveRow rows editing form isAuthed mutError).alertMsg = some duplicateMessage ∧
    (saveRow rows editing form isAuthed mutError).errorMsg = duplicateMessage := by
  have hcond1 : ((mkPayload form).product_name = "" || (mkPayload form).old_code = ""
      || (mkPayload form).new_code = "") = false := by
    simp [mkPayload, hpn, hoc, hnc]
  have hcond2 : ((dupName rows editing (mkPayload form)).isSome
      || (dupNewCode rows editing (mkPayload form)).isSome) = true := by
    rcases hdup with ⟨r, hr, hself, hm | hm⟩
    · have h1 : (dupName rows editing (mkPayload form)).isSome = true := by
        simp only [dupName, List.find?_isSome]
        exact ⟨r, hr, by simp [hself, mkPayload, hm]⟩
      simp [h1]
    · have h2 : (dupNewCode rows editing (mkPayload form)).isSome = true := by
        simp only [dupNewCode, List.find?_isSome]
        exact ⟨r, hr, by simp [hself, mkPayload, hm]⟩
      simp [h2]
  unfold saveRow
  simp [hcond1, hcond2]

/-- C3 witness: the draft `{product_name := "apple", old_code := "2",
new_code := "99"}` against a catalog holding `"Apple"` is blocked as a
duplicate. -/
theorem saveRow_duplicate_blocks_witness :
    (jsTrim ("apple" : String) ≠ "" ∧ jsTrim ("2" : String) ≠ "" ∧
      jsTrim ("99" : String) ≠ "" ∧
      (∃ r ∈ [(⟨1, "Apple", "1", "17", none⟩ : Row)], isEditedRow Editing.adding r = false ∧
        (jsToLower r.product_name = jsToLower (jsTrim "apple") ∨
          jsToLower r.new_code = jsToLower (jsTrim "99")))) ∧
    ((saveRow [⟨1, "Apple", "1", "17", none⟩] Editing.adding ⟨"apple", "2", "99", ""⟩ true
        none).calls = [] ∧
      (saveRow [⟨1, "Apple", "1", "17", none⟩] Editing.adding ⟨"apple", "2", "99", ""⟩ true
        none).alertMsg = some duplicateMessage ∧
      (saveRow [⟨1, "Apple", "1", "17", none⟩] Editing.adding ⟨"apple", "2", "99", ""⟩ true
        none).errorMsg = duplicateMessage) :=
  ⟨⟨by decide, by decide, by decide, by decide⟩,
    saveRow_duplicate_blocks [⟨1, "Apple", "1", "17", none⟩] Editing.adding
      ⟨"apple", "2", "99", ""⟩ true none (by decide) (by decide) (by decide) (by decide)⟩

/-- C4 counterexample: the claim fails on catalogs the spec itself allows,
since the invariant is advisory only.  With two loaded records both named
`"Apple"`, editing the first and resubmitting its own values is flagged as
a duplicate (by the second record); likewise with `"Apple "` and `"Apple"`,
which are case-insensitively distinct as stored yet collide after the
submitted copy is trimmed. -/
theorem saveRow_edit_self_claim_counterexample :
    (saveRow [(⟨1, "Apple", "1", "17", none⟩ : Row), ⟨2, "Apple", "2", "18", none⟩]
        (Editing.row ⟨1, "Apple", "1", "17", none⟩)
        (openEditForm ⟨1, "Apple", "1", "17", none⟩) true none).alertMsg =
      some duplicateMessage ∧
    (jsToLower "Apple " ≠ jsToLower "Apple" ∧
      (saveRow [(⟨1, "Apple ", "1", "17", none⟩ : Row), ⟨2, "Apple", "0", "23", none⟩]
        (Editing.row ⟨1, "Apple ", "1", "17", none⟩)
        (openEditForm ⟨1, "Apple ", "1", "17", none⟩) true none).alertMsg =
      some duplicateMessage) := by
  decide

/-- C4 amended: editing a row whose `product_name` and `new_code` are
unchanged by trimming, in a catalog where no other record shares either
value case-insensitively, and resubmitting its own values finds no
duplicate: both scans come up empty and the duplicate error is never
surfaced, whatever the session and backend. -/
theorem saveRow_edit_own_values_no_duplicate (rows : List Row) (r : Row)
    (isAuthed : Bool) (mutError : Option String)
    (hmem : r ∈ rows)
    (hpn : jsTrim r.product_name = r.product_name) (hnc : jsTrim r.new_code = r.new_code)
    (huniq : ∀ o ∈ rows, o.id ≠ r.id →
      jsToLower o.product_name ≠ jsToLower r.product_name ∧
      jsToLower o.new_code ≠ jsToLower r.new_code) :
    dupName rows (Editing.row r) (mkPayload (openEditForm r)) = none ∧
    dupNewCode rows (Editing.row r) (mkPayload (openEditForm r)) = none ∧
    (saveRow rows (Editing.row r) (openEditForm r) isAuthed mutError).alertMsg ≠
      some duplicateMessage := by
  have h1 : dupName rows (Editing.row r) (mkPayload (openEditForm r)) = none := by
    simp only [dupName, List.find?_eq_none]
    intro o ho
    by_cases hid : o.id = r.id
    · simp [isEditedRow, hid]
    · simp [isEditedRow, hid, mkPayload, openEditForm, hpn]
      exact (huniq o ho hid).1
  have h2 : dupNewCode rows (Editing.row r) (mkPayload (openEditForm r)) = none := by
    simp only [dupNewCode, List.find?_eq_none]
    intro o ho
    by_cases hid : o.id = r.id
    · simp [isEditedRow, hid]
    · simp [isEditedRow, hid, mkPayload, openEditForm, hnc]
      exact (huniq o ho hid).2
  refine ⟨h1, h2, ?_⟩
  unfold saveRow
  simp only [h1, h2, Option.isSome_none, Bool.or_self, Bool.false_eq_true, if_false]
  split
  · decide
  · split
    · decide
    · cases mutError <;> simp [saveFailedMessage, duplicateMessage]

/-- C4 witness: editing the `"Apple"` row of a two-row catalog and
resubmitting its own values finds no duplicate. -/
theorem saveRow_edit_own_values_no_duplicate_witness :
    ((⟨1, "Apple", "1", "17", none⟩ : Row) ∈
        [(⟨1, "Apple", "1", "17", none⟩ : Row), ⟨2, "Banana", "0", "23", none⟩] ∧
      jsTrim "Apple" = "Apple" ∧ jsTrim "17" = "17" ∧
      (∀ o ∈ [(⟨1, "Apple", "1", "17", none⟩ : Row), ⟨2, "Banana", "0", "23", none⟩],
        o.id ≠ 1 →
        jsToLower o.product_name ≠ jsToLower "Apple" ∧
        jsToLower o.new_code ≠ jsToLower "17")) ∧
    (dupName [(⟨1, "Apple", "1", "17", none⟩ : Row), ⟨2, "Banana", "0", "23", none⟩]
        (Editing.row ⟨1, "Apple", "1", "17", none⟩)
        (mkPayload (openEditForm ⟨1, "Apple", "1", "17", none⟩)) = none ∧
      dupNewCode [(⟨1, "Apple", "1", "17", none⟩ : Row), ⟨2, "Banana", "0", "23", none⟩]
        (Editing.row ⟨1, "Apple", "1", "17", none⟩)
        (mkPayload (openEditForm ⟨1, "Apple", "1", "17", none⟩)) = none ∧
      (saveRow [(⟨1, "Apple", "1", "17", none⟩ : Row), ⟨2, "Banana", "0", "23", none⟩]
        (Editing.row ⟨1, "Apple", "1", "17", none⟩)
        (openEditForm ⟨1, "Apple", "1", "17", none⟩) true none).alertMsg ≠
        some duplicateMessage) :=
  ⟨⟨by decide, by decide, by decide, by decide⟩,
    saveRow_edit_own_values_no_duplicate
      [(⟨1, "Apple", "1", "17", none⟩ : Row), ⟨2, "Banana", "0", "23", none⟩]
      ⟨1, "Apple", "1", "17", none⟩ true none (by decide) (by decide) (by decide) (by decide)⟩

/-- The catalog store's state: the rows, the loading flag, and the error
flag. -/
structure CatalogState where
  rows : List Row
  loading : Bool
  errorMsg : String
deriving DecidableEq, Repr

/-- `loadData`: set the loading flag and clear the error flag, call
`list()`, then on failure set the error flag to the failure message (with a
fallback when the message is empty) leaving the rows untouched, and on
success replace the rows; the loading flag is cleared either way. -/
def loadData (s : CatalogState) (resp : Except String (List Row)) : CatalogState :=
  match resp with
  | Except.error e =>
    { rows := s.rows, loading := false, errorMsg := if e = "" then loadFailedMessage else e }
  | Except.ok data => { rows := data, loading := false, errorMsg := "" }

/-- C6: when the reload's `list()` fails, the error flag carries the
failure message, the previous catalog is untouched, and the loading flag is
cleared; the loading flag is also cleared on success. -/
theorem loadData_failure_keeps_catalog (s : CatalogState) (e : String) (data : List Row) :
    (loadData s (Except.error e)).rows = s.rows ∧
    (loadData s (Except.error e)).errorMsg = (if e = "" then loadFailedMessage else e) ∧
    (loadData s (Except.error e)).loading = false ∧
    (loadData s (Except.ok data)).loading = false :=
  ⟨rfl, rfl, rfl, rfl⟩

/-- Everything observable about one `deleteRow` run: the backend calls
issued in order, the alert shown, the error flag set by `deleteRow` itself,
and the confirmation prompt shown (if reached). -/
structure DeleteOutcome where
  calls : List BackendCall
  alertMsg : Option String
  errorMsg : String
  confirmPrompt : Option String
deriving DecidableEq, Repr

/-- The confirmation prompt, naming the target record. -/
def deletePrompt (row : Row) : String :=
  "Delete \"" ++ row.product_name ++ "\" (Old " ++ row.old_code ++ ")?"

/-- `deleteRow`: reject without a session; ask for confirmation and stop
when it is refused; otherwise call the backend delete and, on success,
reload.  `delError` is the backend's answer to the delete if it is
issued and `confirmAnswer` the user's answer to the prompt. -/
def deleteRow (row : Row) (isAuthed : Bool) (confirmAnswer : Bool)
    (delError : Option String) : DeleteOutcome :=
  if !isAuthed then
    { calls := [], alertMsg := some mustLoginDeleteMessage, errorMsg := "", confirmPrompt := none }
  else if !confirmAnswer then
    { calls := [], alertMsg := none, errorMsg := "", confirmPrompt := some (deletePrompt row) }
  else
    match delError with
    | some e =>
      { calls := [BackendCall.deleteCall row.id], alertMsg := some deleteFailedMessage
        errorMsg := if e = "" then deleteFailedMessage else e
        confirmPrompt := some (deletePrompt row) }
    | none =>
      { calls := [BackendCall.deleteCall row.id, BackendCall.listCall], alertMsg := none
        errorMsg := "", confirmPrompt := some (deletePrompt row) }

/-- C7: without authorization the delete surfaces the authorization alert
and issues no call; without confirmation it issues no call; and any issued
backend call happens only when authorized and confirmed, starts with the
delete of the target row, and follows a prompt that names the record. -/
theorem deleteRow_guards (row : Row) (isAuthed confirmAnswer : Bool)
    (delError : Option String) :
    ((deleteRow row false confirmAnswer delError).calls = [] ∧
      (deleteRow row false confirmAnswer delError).alertMsg = some mustLoginDeleteMessage) ∧
    (deleteRow row isAuthed false delError).calls = [] ∧
    ((deleteRow row isAuthed confirmAnswer delError).calls ≠ [] →
      isAuthed = true ∧ confirmAnswer = true ∧
      (deleteRow row isAuthed confirmAnswer delError).confirmPrompt =
        some (deletePrompt row) ∧
      (deleteRow row isAuthed confirmAnswer delError).calls.head? =
        some (BackendCall.deleteCall row.id) ∧
      ∃ pre post, deletePrompt row = pre ++ row.product_name ++ post) := by
  refine ⟨?_, ?_, ?_⟩
  · cases confirmAnswer <;> cases delError <;> simp [deleteRow]
  · cases isAuthed <;> cases delError <;> simp [deleteRow]
  · intro hcalls
    cases isAuthed <;> cases confirmAnswer <;> cases delError <;>
      simp [deleteRow] at hcalls ⊢ <;>
      exact ⟨"Delete \"", "\" (Old " ++ row.old_code ++ ")?",
        by simp [deletePrompt, String.append_assoc]⟩

/-- C7 witness: an authorized, confirmed delete issues its calls and shows
the prompt naming the record. -/
theorem deleteRow_guards_witness :
    (deleteRow ⟨1, "Apple", "1", "17", none⟩ true true none).calls ≠ [] ∧
    ((deleteRow ⟨1, "Apple", "1", "17", none⟩ true true none).confirmPrompt =
        some (deletePrompt ⟨1, "Apple", "1", "17", none⟩) ∧
      (deleteRow ⟨1, "Apple", "1", "17", none⟩ true true none).calls.head? =
        some (BackendCall.deleteCall 1) ∧
      ∃ pre post, deletePrompt (⟨1, "Apple", "1", "17", none⟩ : Row) =
        pre ++ "Apple" ++ post) :=
  ⟨by decide,
    ((deleteRow_guards ⟨1, "Apple", "1", "17", none⟩ true true none).2.2
        (by decide)).2.2⟩

/-- C9: on a successful mutation the backend trace is exactly the mutation
followed by one `list()` call, for both save and delete; on a failed
mutation no `list()` call follows. -/
theorem mutation_then_single_reload (rows : List Row) (editing : Editing) (form : Form)
    (isAuthed : Bool) (row : Row) (confirmAnswer : Bool) :
    ((saveRow rows editing form isAuthed none).calls = [] ∨
      ∃ m, m.isMutation = true ∧
        (saveRow rows editing form isAuthed none).calls = [m, BackendCall.listCall]) ∧
    (∀ e, (saveRow rows editing form isAuthed (some e)).calls = [] ∨
      ∃ m, m.isMutation = true ∧
        (saveRow rows editing form isAuthed (some e)).calls = [m]) ∧
    ((deleteRow row isAuthed confirmAnswer none).calls = [] ∨
      (deleteRow row isAuthed confirmAnswer none).calls =
        [BackendCall.deleteCall row.id, BackendCall.listCall]) ∧
    (∀ e, (deleteRow row isAuthed confirmAnswer (some e)).calls = [] ∨
      (deleteRow row isAuthed confirmAnswer (some e)).calls =
        [BackendCall.deleteCall row.id]) := by
  refine ⟨?_, ?_, ?_, ?_⟩
  · unfold saveRow
    dsimp only
    split
    · exact Or.inl rfl
    · split
      · exact Or.inl rfl
      · split
        · exact Or.inl rfl
        · refine Or.inr ?_
          cases heid : editingId editing <;> simp [heid, BackendCall.isMutation]
  · intro e
    unfold saveRow
    dsimp only
    split
    · exact Or.inl rfl
    · split
      · exact Or.inl rfl
      · split
        · exact Or.inl rfl
        · refine Or.inr ?_
          cases heid : editingId editing <;> simp [heid, BackendCall.isMutation]
  · cases isAuthed <;> cases confirmAnswer <;> simp [deleteRow]
  · intro e
    cases isAuthed <;> cases confirmAnswer <;> simp [deleteRow]

/-- The editor modal state affected by `closeEditor` and `signOut`. -/
structure EditorState where
  editing : Editing
  form : Form
deriving DecidableEq, Repr

/-- The empty form the editor is reset to. -/
def emptyForm : Form :=
  { product_name := "", old_code := "", new_code := "", notes := "" }

/-- `closeEditor`: close the modal and reset the form. -/
def closeEditor (s : EditorState) : EditorState :=
  { editing := Editing.closed, form := emptyForm }

/-- `signOut`: await the backend sign-out (its result is ignored) and close
any open editor. -/
def signOut (s : EditorState) (signOutError : Option String) : EditorState :=
  closeEditor s

/-- C10: sign-out always closes the editor and resets the form, whatever
the prior editor state and whatever the backend sign-out answered. -/
theorem signOut_closes_editor (s : EditorState) (signOutError : Option String) :
    (signOut s signOutError).editing = Editing.closed ∧
    (signOut s signOutError).form = emptyForm :=
  ⟨rfl, rfl⟩

end PLUSubs
